import Mathlib

/-!
Shallow embedding of the MentorHub dashboard's session-lifecycle and
consistency layer: access policy, cancel flow, feedback eligibility and
submission, cache invalidation, stats aggregation, and mentor
recommendation, followed by theorems settling the spec claims.
-/

namespace MentorHub

/-- User roles (schema: role ∈ \x7bmentor, mentee\x7d). -/
inductive Role
  | mentor
  | mentee
  deriving DecidableEq, Repr

/-- Session statuses handled by the session card. -/
inductive SessionStatus
  | pending
  | approved
  | completed
  | canceled
  | rejected
  deriving DecidableEq, Repr

/-- User record (id, role, firstName, lastName as used by the card). -/
structure User where
  id : Nat
  role : Role
  firstName : String
  lastName : String
  deriving DecidableEq, Repr

/-- Session record (id, mentorId, menteeId, status as used by the card). -/
structure Session where
  id : Nat
  mentorId : Nat
  menteeId : Nat
  status : SessionStatus
  deriving DecidableEq, Repr

/-- Feedback record (sessionId, fromId, toId, rating, comment). -/
structure Feedback where
  sessionId : Nat
  fromId : Nat
  toId : Nat
  rating : Int
  comment : String
  deriving DecidableEq, Repr

/-- `isOwnSession`: ownership check branching on the viewer's role
(session-card component, lines 36-38). -/
def isOwnSession (user : User) (session : Session) : Bool :=
  if user.role = Role.mentor then session.mentorId == user.id
  else session.menteeId == user.id

/-- `isMentor` (session-card component, line 40). -/
def isMentor (user : User) : Bool :=
  user.role = Role.mentor

/-- `participantId`: the other party's id (session-card component, line 41). -/
def participantId (user : User) (session : Session) : Nat :=
  if isMentor user then session.menteeId else session.mentorId

/-- `hasLeftFeedback`: whether the viewer already left feedback for this
session, over the fetched feedback-given snapshot (lines 55-57);
an unfetched snapshot (`none`) yields `false` via the `|| false` fallback. -/
def hasLeftFeedback (userFeedback : Option (List Feedback)) (session : Session)
    (user : User) : Bool :=
  match userFeedback with
  | some fb => fb.any (fun f => f.sessionId == session.id && f.fromId == user.id)
  | none => false

/-- `shouldShowFullName` (session-card component, line 263). -/
def shouldShowFullName (user : User) (session : Session) : Bool :=
  isOwnSession user session && session.status == SessionStatus.completed

/-- The role label used in place of a real name (line 267). -/
def roleLabel (user : User) : String :=
  if isMentor user then "Mentee" else "Mentor"

/-- Full name rendering `firstName lastName` (line 266). -/
def fullName (p : User) : String :=
  p.firstName ++ " " ++ p.lastName

/-- `participantName` (lines 265-267): full name only when
`shouldShowFullName` holds and the participant record is loaded;
otherwise the role label. -/
def participantName (user : User) (session : Session)
    (participant : Option User) : String :=
  match participant with
  | some p =>
      if shouldShowFullName user session then fullName p else roleLabel user
  | none => roleLabel user

/-- A `PUT /api/sessions/\x7bid\x7d` status-update request. -/
structure SessionUpdate where
  id : Nat
  status : SessionStatus
  deriving DecidableEq, Repr

/-- Outcome of the cancel handler: whether the permission-denied toast was
raised, and the list of session-update mutations dispatched. -/
structure CancelOutcome where
  permissionError : Bool
  mutations : List SessionUpdate
  deriving DecidableEq, Repr

/-- `handleCancel` (lines 163-175): a viewer who is neither the session's
mentor nor its mentee gets a permission-denied toast and no mutation;
otherwise a single status-update to `canceled` is dispatched. -/
def handleCancel (user : User) (session : Session) : CancelOutcome :=
  if session.mentorId != user.id && session.menteeId != user.id then
    { permissionError := true, mutations := [] }
  else
    { permissionError := false,
      mutations := [{ id := session.id, status := SessionStatus.canceled }] }

/-- Whether any cancel button is rendered for this viewer and session:
the cancel button of the approved-status action block (lines 312-330),
or the standalone cancel button shown to participants whenever the
status is none of completed/canceled/rejected (lines 331-337). -/
def cancelOffered (user : User) (session : Session) : Bool :=
  (session.status == SessionStatus.approved)
  || ((session.mentorId == user.id || session.menteeId == user.id)
      && session.status != SessionStatus.completed
      && session.status != SessionStatus.canceled
      && session.status != SessionStatus.rejected)

/-- The spec's `canViewFullName` condition, written exactly as the claim
states it, to be compared with the code's `shouldShowFullName`. -/
def canViewFullNameSpec (v : User) (s : Session) : Prop :=
  ((v.role = Role.mentor ∧ v.id = s.mentorId)
    ∨ (v.role = Role.mentee ∧ v.id = s.menteeId))
  ∧ s.status = SessionStatus.completed

/-- Modelled from the spec: the feedback-eligibility gate
`canLeaveFeedback(viewer, session, priorFeedback)`. The repository's
source only carries the `hasLeftFeedback` filter (session-card lines
55-57, embedded above); the button gated by it is not in the provided
files, so the conjunction is taken from the spec's contract: owner of
the session, status completed, and no prior feedback by this viewer
for this session. -/
def canLeaveFeedback (viewer : User) (session : Session)
    (priorFeedback : List Feedback) : Bool :=
  isOwnSession viewer session
  && session.status == SessionStatus.completed
  && !(hasLeftFeedback (some priorFeedback) session viewer)

/-- A `POST /api/feedback` payload (lines 182-188). -/
structure FeedbackPayload where
  sessionId : Nat
  fromId : Nat
  toId : Nat
  rating : Int
  comment : String
  deriving DecidableEq, Repr

/-- Outcome of the feedback submit handler: whether a client-side
validation error was raised, and the payloads dispatched to the server. -/
structure SubmitOutcome where
  validationError : Bool
  dispatched : List FeedbackPayload
  deriving DecidableEq, Repr

/-- `submitFeedback` (lines 181-190): builds the payload — `toId` computed
as the other participant — and dispatches it unconditionally; no
client-side validation is performed. -/
def submitFeedback (user : User) (session : Session) (rating : Int)
    (comment : String) : SubmitOutcome :=
  { validationError := false,
    dispatched := [{ sessionId := session.id,
                     fromId := user.id,
                     toId := if isMentor user then session.menteeId
                             else session.mentorId,
                     rating := rating,
                     comment := comment }] }

/-- The four mutations of the two components. -/
inductive MutationKind
  | updateSession
  | submitFeedbackMutation
  | addSkill
  | updateSkill
  deriving DecidableEq, Repr

/-- Query keys invalidated in each mutation's `onSuccess` handler
(session card lines 64-68 and 104-114; skills component lines 60-61
and 83-84). -/
def invalidationsOnSuccess (m : MutationKind) : List String :=
  match m with
  | .updateSession =>
      ["/api/sessions", "/api/sessions/upcoming", "/api/activities"]
  | .submitFeedbackMutation =>
      ["/api/feedback", "/api/feedback/given", "/api/activities"]
  | .addSkill => ["/api/skills"]
  | .updateSkill => ["/api/skills"]

/-- Query keys invalidated when a mutation settles: the `onSuccess` set on
success; the `onError` handlers (lines 90-96, 116-122, 69-75, 90-96)
only raise a toast, so no key is invalidated on failure. -/
def invalidationsIssued (m : MutationKind) (success : Bool) : List String :=
  if success then invalidationsOnSuccess m else []

/-- `upcomingSessionsCount` (stats component, line 32):
`upcomingSessions?.length || 0`. -/
def upcomingSessionsCount (upcoming : Option (List Session)) : Nat :=
  match upcoming with
  | some l => l.length
  | none => 0

/-- `totalHours` (stats component, line 33): session count times one
assumed hour per session. -/
def totalHours (sessions : Option (List Session)) : Nat :=
  (match sessions with
   | some l => l.length
   | none => 0) * 1

/-- `activeMentorsCount` (stats component, line 34): directory size for
mentee viewers, zero otherwise. -/
def activeMentorsCount (role : Role) (mentors : Option (List User)) : Nat :=
  if role = Role.mentee then
    (match mentors with
     | some l => l.length
     | none => 0)
  else 0

/-- JavaScript `Math.round` on a non-negative value: floor of x + 1/2. -/
def jsRound (q : ℚ) : ℤ :=
  ⌊q + 1 / 2⌋

/-- `feedback.reduce((sum, item) => sum + item.rating, 0)` (line 39). -/
def sumRatings (fs : List Feedback) : ℤ :=
  fs.foldl (fun sum item => sum + item.rating) 0

/-- `avgRating` (stats component, lines 37-41): 0 unless the feedback
collection is fetched and non-empty, in which case the mean rating is
rounded to one decimal via `Math.round(x * 10) / 10`. -/
def avgRating (feedback : Option (List Feedback)) : ℚ :=
  match feedback with
  | some fs =>
      if fs.length > 0 then
        ((jsRound ((sumRatings fs : ℚ) / (fs.length : ℚ) * 10) : ℚ)) / 10
      else 0
  | none => 0

/-- The value shown by the Feedback Score card. -/
inductive RatingDisplay
  | score (value : ℚ)
  | noRatings
  deriving DecidableEq, Repr

/-- Feedback Score card value (line 101):
`avgRating ? avgRating/5 : "No ratings"` — a number is truthy exactly
when non-zero, so the sentinel shows iff the computed average is 0. -/
def feedbackScoreDisplay (feedback : Option (List Feedback)) : RatingDisplay :=
  if avgRating feedback ≠ 0 then .score (avgRating feedback) else .noRatings

/-- Loading flags of the four stats queries, in source order:
upcoming sessions (`sessionsLoading`), all sessions
(`allSessionsLoading`), feedback (`feedbackLoading`), mentor directory
(`mentorsLoading`). -/
structure StatsInput where
  upcomingSessions : Option (List Session)
  sessions : Option (List Session)
  feedback : Option (List Feedback)
  mentors : Option (List User)
  sessionsLoading : Bool
  allSessionsLoading : Bool
  feedbackLoading : Bool
  mentorsLoading : Bool

/-- The stats section render result: either the loading skeleton or the
four computed card values (upcoming count, total hours, third-slot
count, feedback score). -/
inductive StatsView
  | loadingPlaceholder
  | stats (upcoming : Nat) (hours : Nat) (thirdSlot : Nat)
      (score : RatingDisplay)
  deriving DecidableEq, Repr

/-- The loading gate (stats component, line 43). -/
def statsLoading (role : Role) (inp : StatsInput) : Bool :=
  inp.sessionsLoading || inp.allSessionsLoading || inp.feedbackLoading
  || ((role == Role.mentee) && inp.mentorsLoading)

/-- `StatsOverview` (stats component, lines 43-105): skeleton while the
gate holds, otherwise the four card values; the third card is the
active-mentor count for mentees and the upcoming-session count
(relabeled, clamped at 0) for mentors (lines 81-97). -/
def statsOverview (role : Role) (inp : StatsInput) : StatsView :=
  if statsLoading role inp then .loadingPlaceholder
  else
    .stats (upcomingSessionsCount inp.upcomingSessions)
      (totalHours inp.sessions)
      (if role = Role.mentee then activeMentorsCount role inp.mentors
       else if upcomingSessionsCount inp.upcomingSessions > 0 then
         upcomingSessionsCount inp.upcomingSessions
       else 0)
      (feedbackScoreDisplay inp.feedback)

/-- `recommendedMentors` (recommended-mentors component, lines 20-22):
`mentors?.filter(m => m.role === "mentor").slice(0, 4)`. -/
def recommendedMentors (mentors : Option (List User)) : Option (List User) :=
  mentors.map (fun ms => (ms.filter (fun m => m.role == Role.mentor)).take 4)

/-! ## Theorems settling the claims -/

/-- C1: the other participant's full name is shown iff the viewer owns the
session (mentor viewing their own session, or mentee viewing theirs) and
the session is completed; in every other combination the participant is
displayed only by the role label, never by real name. -/
theorem c1_participant_name_privacy (v : User) (s : Session)
    (op : Option User) :
    (shouldShowFullName v s = true ↔ canViewFullNameSpec v s)
    ∧ (shouldShowFullName v s = false → participantName v s op = roleLabel v)
    ∧ (∀ p, shouldShowFullName v s = true →
        participantName v s (some p) = fullName p) := by
  refine ⟨?_, ?_, ?_⟩
  · cases hr : v.role <;>
      simp [shouldShowFullName, isOwnSession, canViewFullNameSpec, hr,
        Bool.and_eq_true, beq_iff_eq] <;>
      exact fun _ => eq_comm
  · intro h
    cases op with
    | none => rfl
    | some p => simp [participantName, h]
  · intro p h
    simp [participantName, h]

/-- Witness for C1 at a concrete owner-and-completed input. -/
theorem c1_participant_name_privacy_witness :
    participantName ⟨1, Role.mentor, "Ann", "Lee"⟩
        ⟨7, 1, 2, SessionStatus.completed⟩
        (some ⟨2, Role.mentee, "Bob", "Kim"⟩) = "Bob Kim" := by
  have h := (c1_participant_name_privacy ⟨1, Role.mentor, "Ann", "Lee"⟩
      ⟨7, 1, 2, SessionStatus.completed⟩
      (some ⟨2, Role.mentee, "Bob", "Kim"⟩)).2.2
      ⟨2, Role.mentee, "Bob", "Kim"⟩ rfl
  exact h.trans rfl

/-- C2: a viewer who is neither the session's mentor nor its mentee gets a
permission error from the cancel handler and no mutation is dispatched. -/
theorem c2_nonparticipant_cancel_denied (u : User) (s : Session)
    (h : u.id ≠ s.mentorId ∧ u.id ≠ s.menteeId) :
    (handleCancel u s).permissionError = true
    ∧ (handleCancel u s).mutations = [] := by
  have h1 : s.mentorId ≠ u.id := fun e => h.1 e.symm
  have h2 : s.menteeId ≠ u.id := fun e => h.2 e.symm
  simp [handleCancel, h1, h2]

/-- Witness for C2: a stranger (id 9) cancelling a session of users 1, 2. -/
theorem c2_nonparticipant_cancel_denied_witness :
    (9 : Nat) ≠ 1 ∧ (9 : Nat) ≠ 2
    ∧ (handleCancel ⟨9, Role.mentee, "Eve", "Oz"⟩
        ⟨7, 1, 2, SessionStatus.approved⟩).permissionError = true
    ∧ (handleCancel ⟨9, Role.mentee, "Eve", "Oz"⟩
        ⟨7, 1, 2, SessionStatus.approved⟩).mutations = [] := by
  have h := c2_nonparticipant_cancel_denied ⟨9, Role.mentee, "Eve", "Oz"⟩
      ⟨7, 1, 2, SessionStatus.approved⟩ ⟨by decide, by decide⟩
  exact ⟨by decide, by decide, h.1, h.2⟩

/-- C3 counterexample: for a pending session, the standalone cancel button
is rendered for a participant even though pending ≠ approved, and the
triggered handler does dispatch the cancel mutation. -/
theorem c3_counterexample_pending_cancel_offered :
    cancelOffered ⟨2, Role.mentee, "Bob", "Kim"⟩
        ⟨7, 1, 2, SessionStatus.pending⟩ = true
    ∧ (⟨7, 1, 2, SessionStatus.pending⟩ : Session).status
        ≠ SessionStatus.approved
    ∧ (handleCancel ⟨2, Role.mentee, "Bob", "Kim"⟩
        ⟨7, 1, 2, SessionStatus.pending⟩).mutations
        = [{ id := 7, status := SessionStatus.canceled }] :=
  ⟨rfl, by decide, rfl⟩

/-- C3 amended: the cancel action is offered exactly from the approved
status (the approved action block) or, for a participant viewer, from
any status outside \x7bcompleted, canceled, rejected\x7d — i.e. also from
pending; it is never offered for completed, canceled or rejected. -/
theorem c3_amended_cancel_offer_condition (u : User) (s : Session) :
    (cancelOffered u s = true ↔
      (s.status = SessionStatus.approved
        ∨ ((s.mentorId = u.id ∨ s.menteeId = u.id)
            ∧ s.status = SessionStatus.pending)))
    ∧ ((s.status = SessionStatus.completed ∨ s.status = SessionStatus.canceled
        ∨ s.status = SessionStatus.rejected) → cancelOffered u s = false) := by
  rcases s with ⟨sid, mid, eid, st⟩
  cases st <;>
    simp [cancelOffered, Bool.and_eq_true, Bool.or_eq_true, beq_iff_eq,
      bne_iff_ne]

/-- Witness for C3's amended statement: cancel is not offered for a
completed session. -/
theorem c3_amended_cancel_offer_condition_witness :
    cancelOffered ⟨1, Role.mentor, "Ann", "Lee"⟩
        ⟨3, 1, 2, SessionStatus.completed⟩ = false :=
  (c3_amended_cancel_offer_condition ⟨1, Role.mentor, "Ann", "Lee"⟩
      ⟨3, 1, 2, SessionStatus.completed⟩).2 (Or.inl rfl)

/-- C4: feedback eligibility is a pure filter over the feedback-given
snapshot — true iff the viewer owns the session, the session is
completed, and no snapshot entry has this session id and this viewer as
author; adding such an entry makes eligibility false. -/
theorem c4_feedback_eligibility_filter (v : User) (s : Session)
    (F : List Feedback) (f : Feedback)
    (hf : f.sessionId = s.id ∧ f.fromId = v.id) :
    (canLeaveFeedback v s F = true ↔
      (isOwnSession v s = true ∧ s.status = SessionStatus.completed
        ∧ ∀ g ∈ F, ¬(g.sessionId = s.id ∧ g.fromId = v.id)))
    ∧ canLeaveFeedback v s (f :: F) = false := by
  constructor
  · simp [canLeaveFeedback, hasLeftFeedback, List.any_eq_true,
      Bool.and_eq_true, beq_iff_eq]
    tauto
  · simp [canLeaveFeedback, hasLeftFeedback, List.any_cons, hf.1, hf.2]

/-- Witness for C4: mentee 2 on their completed session 7, first with an
empty snapshot (eligible) and then with their own feedback row present
(not eligible). -/
theorem c4_feedback_eligibility_filter_witness :
    canLeaveFeedback ⟨2, Role.mentee, "Bob", "Kim"⟩
        ⟨7, 1, 2, SessionStatus.completed⟩ [] = true
    ∧ canLeaveFeedback ⟨2, Role.mentee, "Bob", "Kim"⟩
        ⟨7, 1, 2, SessionStatus.completed⟩
        [{ sessionId := 7, fromId := 2, toId := 1, rating := 5,
           comment := "" }] = false := by
  have h := c4_feedback_eligibility_filter ⟨2, Role.mentee, "Bob", "Kim"⟩
      ⟨7, 1, 2, SessionStatus.completed⟩ []
      { sessionId := 7, fromId := 2, toId := 1, rating := 5, comment := "" }
      ⟨rfl, rfl⟩
  exact ⟨h.1.mpr ⟨rfl, rfl, by simp⟩, h.2⟩

/-- C5 counterexample: a submission with rating 6 raises no client-side
validation error and is dispatched to the server anyway. -/
theorem c5_counterexample_rating_six_dispatched :
    (submitFeedback ⟨2, Role.mentee, "Bob", "Kim"⟩
        ⟨7, 1, 2, SessionStatus.completed⟩ 6 "").validationError = false
    ∧ (submitFeedback ⟨2, Role.mentee, "Bob", "Kim"⟩
        ⟨7, 1, 2, SessionStatus.completed⟩ 6 "").dispatched
        = [{ sessionId := 7, fromId := 2, toId := 1, rating := 6,
             comment := "" }] :=
  ⟨rfl, rfl⟩

/-- C5 amended: the submit handler performs no client-side validation at
all — every submission, whatever its rating, is dispatched to the server
with the rating passed through unchanged and no validation error. -/
theorem c5_amended_no_client_validation (u : User) (s : Session) (r : Int)
    (c : String) :
    (submitFeedback u s r c).validationError = false
    ∧ (submitFeedback u s r c).dispatched
        = [{ sessionId := s.id, fromId := u.id,
             toId := if isMentor u then s.menteeId else s.mentorId,
             rating := r, comment := c }] :=
  ⟨rfl, rfl⟩

/-- C6: every dispatched feedback payload carries `toId` equal to the id of
the session's other participant (menteeId for a mentor viewer, mentorId
for a mentee viewer), independent of the user-supplied rating and
comment inputs. -/
theorem c6_toId_other_participant (u : User) (s : Session) (r : Int)
    (c : String) (r' : Int) (c' : String) :
    (∀ p ∈ (submitFeedback u s r c).dispatched,
        p.toId = if u.role = Role.mentor then s.menteeId else s.mentorId)
    ∧ (submitFeedback u s r c).dispatched.map FeedbackPayload.toId
        = (submitFeedback u s r' c').dispatched.map FeedbackPayload.toId := by
  constructor
  · intro p hp
    simp [submitFeedback] at hp
    subst hp
    by_cases h : u.role = Role.mentor <;> simp [isMentor, h]
  · rfl

/-- Witness for C6: a mentor's dispatched payload targets the mentee
(id 2). -/
theorem c6_toId_other_participant_witness :
    ((submitFeedback ⟨1, Role.mentor, "Ann", "Lee"⟩
        ⟨7, 1, 2, SessionStatus.completed⟩ 5 "great").dispatched.headD
        { sessionId := 0, fromId := 0, toId := 0, rating := 0,
          comment := "" }).toId = 2 := by
  have h := (c6_toId_other_participant ⟨1, Role.mentor, "Ann", "Lee"⟩
      ⟨7, 1, 2, SessionStatus.completed⟩ 5 "great" 1 "bad").1
      ((submitFeedback ⟨1, Role.mentor, "Ann", "Lee"⟩
        ⟨7, 1, 2, SessionStatus.completed⟩ 5 "great").dispatched.headD
        { sessionId := 0, fromId := 0, toId := 0, rating := 0,
          comment := "" })
      (by decide)
  simpa using h

/-- C7: each mutation invalidates exactly its declared set of cache keys on
success — session update: sessions, upcoming sessions, activities;
feedback submit: feedback, feedback-given, activities; skill add and
skill update: skills only — and no mutation invalidates anything on
failure. -/
theorem c7_invalidation_sets :
    invalidationsIssued MutationKind.updateSession true
        = ["/api/sessions", "/api/sessions/upcoming", "/api/activities"]
    ∧ invalidationsIssued MutationKind.submitFeedbackMutation true
        = ["/api/feedback", "/api/feedback/given", "/api/activities"]
    ∧ invalidationsIssued MutationKind.addSkill true = ["/api/skills"]
    ∧ invalidationsIssued MutationKind.updateSkill true = ["/api/skills"]
    ∧ ∀ m, invalidationsIssued m false = [] :=
  ⟨rfl, rfl, rfl, rfl, fun _ => rfl⟩

/-- C8: the stats section renders the loading placeholder exactly while
some required collection is still loading — upcoming sessions, all
sessions, feedback, or (for mentee viewers only) the mentor
directory — so a partial aggregate is never shown. -/
theorem c8_stats_loading_gate (role : Role) (inp : StatsInput) :
    statsOverview role inp = StatsView.loadingPlaceholder ↔
      (inp.sessionsLoading = true ∨ inp.allSessionsLoading = true
        ∨ inp.feedbackLoading = true
        ∨ (role = Role.mentee ∧ inp.mentorsLoading = true)) := by
  rcases inp with ⟨us, ss, fb, ms, l1, l2, l3, l4⟩
  cases role <;> cases l1 <;> cases l2 <;> cases l3 <;> cases l4 <;>
    simp [statsOverview, statsLoading]

/-- C10: the recommended-mentors list is the first four directory entries
whose role is mentor — hence never longer than four and never
containing a non-mentor. -/
theorem c10_recommended_mentors_filtered (ms : List User) :
    ((recommendedMentors (some ms)).getD []).length ≤ 4
    ∧ (∀ u ∈ (recommendedMentors (some ms)).getD [], u.role = Role.mentor)
    ∧ recommendedMentors (some ms)
        = some ((ms.filter (fun m => m.role == Role.mentor)).take 4) := by
  refine ⟨?_, ?_, rfl⟩
  · simp [recommendedMentors, List.length_take]
  · intro u hu
    simp only [recommendedMentors, Option.map_some', Option.getD_some] at hu
    have h1 : u ∈ ms.filter (fun m => m.role == Role.mentor) :=
      List.mem_of_mem_take hu
    have h2 := (List.mem_filter.mp h1).2
    simpa [beq_iff_eq] using h2

/-- Witness for C10 on a two-entry directory holding one mentor and one
mentee. -/
theorem c10_recommended_mentors_filtered_witness :
    ((recommendedMentors (some [⟨1, Role.mentor, "Ann", "Lee"⟩,
        ⟨2, Role.mentee, "Bob", "Kim"⟩])).getD []).length ≤ 4
    ∧ (⟨1, Role.mentor, "Ann", "Lee"⟩ : User).role = Role.mentor := by
  have h := c10_recommended_mentors_filtered [⟨1, Role.mentor, "Ann", "Lee"⟩,
      ⟨2, Role.mentee, "Bob", "Kim"⟩]
  exact ⟨h.1, h.2.1 ⟨1, Role.mentor, "Ann", "Lee"⟩ (by decide)⟩

lemma sumRatings_foldl (fs : List Feedback) (a : ℤ) :
    fs.foldl (fun sum item => sum + item.rating) a
      = a + (fs.map Feedback.rating).sum := by
  induction fs generalizing a with
  | nil => simp
  | cons f t ih => simp [ih]; ring

lemma sumRatings_eq_map_sum (fs : List Feedback) :
    sumRatings fs = (fs.map Feedback.rating).sum := by
  simpa using sumRatings_foldl fs 0

lemma length_le_sum_of_all_ge_one (l : List ℤ) (h : ∀ x ∈ l, 1 ≤ x) :
    (l.length : ℤ) ≤ l.sum := by
  induction l with
  | nil => simp
  | cons x t ih =>
      simp only [List.sum_cons, List.length_cons]
      have hx := h x (List.mem_cons_self x t)
      have ht := ih (fun y hy => h y (List.mem_cons_of_mem x hy))
      push_cast
      linarith

lemma length_le_sumRatings (fs : List Feedback)
    (hpos : ∀ f ∈ fs, 1 ≤ f.rating) :
    (fs.length : ℤ) ≤ sumRatings fs := by
  rw [sumRatings_eq_map_sum]
  have h : ∀ x ∈ fs.map Feedback.rating, (1 : ℤ) ≤ x := by
    intro x hx
    rcases List.mem_map.mp hx with ⟨f, hf, rfl⟩
    exact hpos f hf
  simpa using length_le_sum_of_all_ge_one (fs.map Feedback.rating) h

lemma one_le_avgRating (fs : List Feedback) (hne : fs ≠ [])
    (hpos : ∀ f ∈ fs, 1 ≤ f.rating) :
    1 ≤ avgRating (some fs) := by
  have hlen : 0 < fs.length := List.length_pos.mpr hne
  have hlenQ : (0 : ℚ) < (fs.length : ℚ) := by exact_mod_cast hlen
  have hsum : ((fs.length : ℕ) : ℚ) ≤ ((sumRatings fs : ℤ) : ℚ) := by
    exact_mod_cast length_le_sumRatings fs hpos
  have hmean : (1 : ℚ) ≤ (sumRatings fs : ℚ) / (fs.length : ℚ) := by
    rw [le_div_iff₀ hlenQ]
    linarith
  have h10 : (10 : ℚ) ≤ (sumRatings fs : ℚ) / (fs.length : ℚ) * 10 := by
    nlinarith
  have hfloor : (10 : ℤ)
      ≤ jsRound ((sumRatings fs : ℚ) / (fs.length : ℚ) * 10) := by
    unfold jsRound
    refine Int.le_floor.mpr ?_
    push_cast
    linarith
  have h10Q : (10 : ℚ)
      ≤ ((jsRound ((sumRatings fs : ℚ) / (fs.length : ℚ) * 10) : ℤ) : ℚ) := by
    exact_mod_cast hfloor
  simp only [avgRating]
  rw [if_pos hlen, le_div_iff₀ (by norm_num : (0 : ℚ) < 10)]
  linarith

lemma avgRating_formula (fs : List Feedback) (hlen : 0 < fs.length) :
    avgRating (some fs)
      = (jsRound (((fs.map Feedback.rating).sum : ℚ)
          / (fs.length : ℚ) * 10) : ℚ) / 10 := by
  simp only [avgRating]
  rw [if_pos hlen, sumRatings_eq_map_sum]

/-- C9: on loaded inputs, upcomingCount is the size of the upcoming list,
totalHours the session count times one, the mentee's active-mentor count
the directory size, and the feedback score the mean rating rounded to
one decimal when feedback is non-empty (with valid ratings ≥ 1) and the
"No ratings" sentinel when it is empty. -/
theorem c9_stats_values (upc sess : List Session) (fs : List Feedback)
    (ms : List User) (hpos : ∀ f ∈ fs, 1 ≤ f.rating) :
    upcomingSessionsCount (some upc) = upc.length
    ∧ totalHours (some sess) = sess.length * 1
    ∧ activeMentorsCount Role.mentee (some ms) = ms.length
    ∧ (fs ≠ [] → feedbackScoreDisplay (some fs)
        = RatingDisplay.score
            ((jsRound (((fs.map Feedback.rating).sum : ℚ)
                / (fs.length : ℚ) * 10) : ℚ) / 10))
    ∧ (fs = [] → feedbackScoreDisplay (some fs)
        = RatingDisplay.noRatings) := by
  refine ⟨rfl, rfl, rfl, ?_, ?_⟩
  · intro hne
    have hlen : 0 < fs.length := List.length_pos.mpr hne
    have h1 := one_le_avgRating fs hne hpos
    have hz : avgRating (some fs) ≠ 0 := by
      intro h
      rw [h] at h1
      norm_num at h1
    unfold feedbackScoreDisplay
    rw [if_pos hz, avgRating_formula fs hlen]
  · intro he
    subst he
    rfl

/-- Witness for C9: the spec's scenario — 3 upcoming sessions, 10 sessions,
ratings 4 and 5, 6 mentors, mentee viewer — yields 3, 10, 6 and an
average score of 4.5. -/
theorem c9_stats_values_witness :
    upcomingSessionsCount
        (some (List.replicate 3 ⟨0, 0, 0, SessionStatus.pending⟩)) = 3
    ∧ totalHours
        (some (List.replicate 10 ⟨0, 0, 0, SessionStatus.pending⟩)) = 10
    ∧ activeMentorsCount Role.mentee
        (some (List.replicate 6 ⟨0, Role.mentor, "", ""⟩)) = 6
    ∧ feedbackScoreDisplay
        (some [{ sessionId := 7, fromId := 2, toId := 1, rating := 4,
                 comment := "" },
               { sessionId := 7, fromId := 2, toId := 1, rating := 5,
                 comment := "" }])
        = RatingDisplay.score (9 / 2) := by
  have h := c9_stats_values
      (List.replicate 3 ⟨0, 0, 0, SessionStatus.pending⟩)
      (List.replicate 10 ⟨0, 0, 0, SessionStatus.pending⟩)
      [{ sessionId := 7, fromId := 2, toId := 1, rating := 4, comment := "" },
       { sessionId := 7, fromId := 2, toId := 1, rating := 5, comment := "" }]
      (List.replicate 6 ⟨0, Role.mentor, "", ""⟩)
      (by decide)
  refine ⟨by simpa using h.1, by simpa using h.2.1, by simpa using h.2.2.1, ?_⟩
  have h4 := h.2.2.2.1 (by decide)
  rw [h4]
  congr 1
  have h45 : jsRound (((9 : ℤ) : ℚ) / ((2 : ℕ) : ℚ) * 10) = 45 := by
    unfold jsRound
    rw [Int.floor_eq_iff]
    constructor <;> norm_num
  norm_num at h45 ⊢
  rw [h45]
  norm_num

end MentorHub
